import Mathlib

/-!
# Verification of `deploy/buildtools/bitbuilder.py` (FireSim bitstream build orchestration)

This file shallowly embeds the control flow of `F1BitBuilder.build_bitstream` and
`F1BitBuilder.aws_create_afi` from `src/deploy/buildtools/bitbuilder.py`.

Modelling conventions:
* External commands (fabric `local`/`run`) are modelled through an environment `Env`
  recording the results the external world returns (Vivado exit code, the listing of
  `*.tar` files, the stream of `describe-fpga-images` states, ...).  Per the spec
  external-collaborator contract (section 6), an executed command yields an exit
  code plus captured output; command execution itself does not raise.
* Observable side effects are recorded as an `Event` trace in program order.
  Pure logging (`rootLogger.*`), the `mkdir`/`cp`/rsync bulk-copy glue and the git
  provenance queries are elided: they neither branch nor are the subject of a claim.
  The `cl_dir` computation (lines 174-185) only affects command path strings and is
  likewise elided.
* Python exceptions that escape (a failed `assert`, or `files.split()[-1]` on an
  empty listing raising `IndexError`) are modelled as the `exn` outcome; the
  unbounded poll loop running forever (its response stream never leaving `pending`)
  is modelled as the `diverge` outcome.
* `BuildConfig` itself is not under `src/`.  Its attributes consumed by the embedded
  code are fields of `Env`.  The spec models a single `BuildHostHandle` per job, so
  the two dispatcher release methods invoked by the source
  (`build_farm_host_dispatcher.release_build_farm_host()` on the bypass/success
  paths, `build_host_dispatcher.release_build_host()` in `on_build_failure`) are
  modelled as two distinct release events on that one handle.
-/

/-- Modelled from the spec: `firesim_tags_to_description` from `awstools.afitools`
(not under `src/`) serializes the three provenance tags (build triplet, deploy
triplet, source commit) into the image description.  Modelled as a record holding
the three tags. -/
structure Description where
  buildTriplet : String
  deployTriplet : String
  fsimCommit : String
  deriving Repr, DecidableEq

/-- Observable side effects of a `build_bitstream` run, in program order. -/
inductive Event where
  /-- `run("{cl_dir}/build-bitstream.sh {cl_dir}")` — the Vivado synthesis stage. -/
  | vivadoRun
  /-- `send_firesim_notification` inside `on_build_failure`. -/
  | notifyFailure
  /-- `send_firesim_notification` on the `available` path of `aws_create_afi`. -/
  | notifySuccess
  /-- `build_farm_host_dispatcher.release_build_farm_host()`. -/
  | releaseFarmHost
  /-- `build_host_dispatcher.release_build_host()` (failure handler). -/
  | releaseBuildHost
  /-- `aws s3 cp <localFile> s3://<bucket>/dcp/<s3Key>`. -/
  | s3Upload (localFile : String) (s3Key : String)
  /-- `aws ec2 create-fpga-image --name <afiname> --description <desc>`. -/
  | createImage (afiname : String) (desc : Description)
  /-- one `aws ec2 describe-fpga-images` query of the poll loop. -/
  | pollQuery
  /-- `time.sleep(secs)`. -/
  | sleep (secs : Nat)
  /-- `copy_afi_to_all_regions(afi)`. -/
  | distribute
  /-- writing the hwdb registry entry file `built-hwdb-entries/<name>`. -/
  | registryWrite (name : String) (contents : String)
  /-- `local(f"{post_build_hook} {local_results_dir}")`. -/
  | hookInvoke (cmd : String)
  /-- the debug logging of the hook captured result (its exit status). -/
  | hookLog (exitCode : Nat)
  deriving Repr, DecidableEq

/-- Outcome of `aws_create_afi`: normal return (`True` or Python `None`),
an escaped exception, or divergence in the poll loop. -/
inductive AfiOutcome where
  | ok (ret : Option Bool)
  | exn
  | diverge
  deriving Repr, DecidableEq

/-- Outcome of `build_bitstream`: normal return, escaped exception, or divergence. -/
inductive BBOutcome where
  | done
  | exn
  | diverge
  deriving Repr, DecidableEq

/-- The build config attributes and external-world responses a run consumes. -/
structure Env where
  /-- `get_deploy_dir()` (the `pwd` of the deploy directory). -/
  deployDir : String
  /-- `build_config.get_build_dir_name()`. -/
  buildDirName : String
  /-- `build_config.name` (the afi name). -/
  name : String
  /-- `build_config.s3_bucketname`. -/
  s3bucket : String
  /-- `build_config.get_chisel_triplet()`. -/
  chiselTriplet : String
  /-- `build_config.deploytriplet` (Python `None` modelled as `none`). -/
  deploytriplet : Option String
  /-- `git rev-parse HEAD` output. -/
  gitHash : String
  /-- whether `git status --porcelain` reported a dirty tree. -/
  gitDirty : Bool
  /-- `env.host_string` (build node identity appended to the s3 key). -/
  hostString : String
  /-- the 10-character random suffix appended to the s3 key. -/
  randSuffix : String
  /-- exit code of `build-bitstream.sh` (Vivado). -/
  vivadoResult : Nat
  /-- `local("ls *.tar").split()`: the artifact files found in
  `build/checkpoints/to_aws/`, in listing order. -/
  tarFiles : List String
  /-- `FpgaImageGlobalId` parsed from the create-fpga-image response. -/
  agfiId : String
  /-- `FpgaImageId` parsed from the create-fpga-image response. -/
  afiId : String
  /-- successive `State.Code` values returned by `describe-fpga-images`;
  the poll loop consumes one per iteration. -/
  pollStatuses : List String
  /-- `build_config.post_build_hook` (Python `None` modelled as `none`). -/
  post_build_hook : Option String
  /-- exit status of the post-build hook command. -/
  hookExit : Nat
  deriving Repr

/-- Python truthiness of an optional string attribute
(`None` and `""` are falsy). -/
def pythonTruthy : Option String → Bool
  | none => false
  | some s => !s.isEmpty

/-- `tag_buildtriplet = build_config.get_chisel_triplet()` (line 238). -/
def tag_buildtriplet (env : Env) : String := env.chiselTriplet

/-- Lines 239-241: `tag_deploytriplet = tag_buildtriplet`, overridden by
`build_config.deploytriplet` when that attribute is truthy. -/
def tag_deploytriplet (env : Env) : String :=
  if pythonTruthy env.deploytriplet then env.deploytriplet.getD ""
  else tag_buildtriplet env

/-- Line 251: `"-dirty"` when `git status --porcelain` reports changes, else `""`. -/
def is_dirty_str (env : Env) : String := if env.gitDirty then "-dirty" else ""

/-- Line 253: `tag_fsimcommit = hash + is_dirty_str`. -/
def tag_fsimcommit (env : Env) : String := env.gitHash ++ is_dirty_str env

/-- Line 262: `global_append = "-" + host_string + "-" + <random> + ".tar"`. -/
def global_append (env : Env) : String :=
  "-" ++ env.hostString ++ "-" ++ env.randSuffix ++ ".tar"

/-- Lines 229-230 (and 167-169): the local results directory
`{deploy_dir}/results-build/{build_dir_name}`. -/
def local_results_dir (env : Env) : String :=
  env.deployDir ++ "/results-build/" ++ env.buildDirName

/-- Lines 299-302: the hwdb registry entry text. -/
def agfi_entry (env : Env) : String :=
  env.name ++ ":\n" ++ ("    agfi: " ++ env.agfiId ++ "\n") ++
    "    deploy_triplet_override: null\n" ++ "    custom_runtime_config: null\n"

/-- Lines 284-291: the poll loop.  `checkstate` starts at `"pending"`, so the body
always runs at least once; each iteration issues one `describe-fpga-images` query,
stores the returned state and sleeps 10 seconds; the loop re-enters while the last
stored state is `"pending"`.  The input list is the stream of states the external
service returns; exhausting it with every response `"pending"` means the real loop
would keep polling forever, modelled as `none`. -/
def pollLoop : List String → Option (String × List Event)
  | [] => none
  | st :: rest =>
    if st = "pending" then
      match pollLoop rest with
      | none => none
      | some (fin, tr) => some (fin, Event.pollQuery :: Event.sleep 10 :: tr)
    else some (st, [Event.pollQuery, Event.sleep 10])

/-- Lines 220-327: `aws_create_afi`.  Returns the event trace and the outcome
(`ok (some true)` for `return True`, `ok none` for `return None`). -/
def aws_create_afi (env : Env) : List Event × AfiOutcome :=
  -- lines 247-255: the three `assert len(...) <= 255` sanity checks
  if 255 < (tag_buildtriplet env).length then ([], AfiOutcome.exn)
  else if 255 < (tag_deploytriplet env).length then ([], AfiOutcome.exn)
  else if 255 < (tag_fsimcommit env).length then ([], AfiOutcome.exn)
  else
    -- lines 264-268: the tar listing; `tarfile = files.split()[-1]` takes the
    -- last entry, and raises IndexError when the listing is empty
    match env.tarFiles.getLast? with
    | none => ([], AfiOutcome.exn)
    | some tarfile =>
      let s3_tarfile := tarfile ++ global_append env
      let desc := Description.mk (tag_buildtriplet env) (tag_deploytriplet env)
        (tag_fsimcommit env)
      let pre : List Event :=
        [Event.s3Upload tarfile s3_tarfile, Event.createImage env.name desc]
      match pollLoop env.pollStatuses with
      | none => (pre, AfiOutcome.diverge)
      | some (checkstate, pollTr) =>
        if checkstate = "available" then
          -- lines 294-325
          let post : List Event :=
            [Event.distribute, Event.notifySuccess,
              Event.registryWrite env.name (agfi_entry env)]
          let hookTr : List Event :=
            if pythonTruthy env.post_build_hook then
              [Event.hookInvoke
                (env.post_build_hook.getD "" ++ " " ++ local_results_dir env),
                Event.hookLog env.hookExit]
            else []
          (pre ++ pollTr ++ post ++ hookTr, AfiOutcome.ok (some true))
        else (pre ++ pollTr, AfiOutcome.ok none)

/-- Lines 151-163: `on_build_failure` sends one failure notification and releases
the build host. -/
def on_build_failure : List Event := [Event.notifyFailure, Event.releaseBuildHost]

/-- Lines 140-218: `build_bitstream`.  Returns the event trace and the outcome. -/
def build_bitstream (env : Env) (bypass : Bool) : List Event × BBOutcome :=
  if bypass then ([Event.releaseFarmHost], BBOutcome.done)
  else
    let pre : List Event := [Event.vivadoRun]
    if env.vivadoResult ≠ 0 then (pre ++ on_build_failure, BBOutcome.done)
    else
      match aws_create_afi env with
      | (tr, AfiOutcome.exn) => (pre ++ tr, BBOutcome.exn)
      | (tr, AfiOutcome.diverge) => (pre ++ tr, BBOutcome.diverge)
      | (tr, AfiOutcome.ok r) =>
        -- line 214: `if not self.aws_create_afi()` (Python truthiness of the result)
        if r = some true then (pre ++ tr ++ [Event.releaseFarmHost], BBOutcome.done)
        else (pre ++ tr ++ on_build_failure, BBOutcome.done)

/-! ## Event classifiers -/

/-- An event is a release of the build host handle (either dispatcher method). -/
def isRelease : Event → Bool
  | Event.releaseFarmHost => true
  | Event.releaseBuildHost => true
  | _ => false

def isNotifySuccess : Event → Bool
  | Event.notifySuccess => true
  | _ => false

def isNotifyFailure : Event → Bool
  | Event.notifyFailure => true
  | _ => false

def isUpload : Event → Bool
  | Event.s3Upload _ _ => true
  | _ => false

def isCreateImage : Event → Bool
  | Event.createImage _ _ => true
  | _ => false

def isPollQuery : Event → Bool
  | Event.pollQuery => true
  | _ => false

def isSleep : Event → Bool
  | Event.sleep _ => true
  | _ => false

def isDistribute : Event → Bool
  | Event.distribute => true
  | _ => false

def isRegistryWrite : Event → Bool
  | Event.registryWrite _ _ => true
  | _ => false

def isHookInvoke : Event → Bool
  | Event.hookInvoke _ => true
  | _ => false

/-- `sub` occurs as a contiguous substring of `s`. -/
def StrContains (s sub : String) : Prop := ∃ p q, s = p ++ sub ++ q

/-! ## Concrete environments used by witnesses and counterexamples -/

/-- A nominal environment: one artifact, Vivado succeeds, the image becomes
`available` after two `pending` polls, and a post-build hook is configured that
exits with status 2. -/
def envBase : Env :=
  { deployDir := "/fsim/deploy", buildDirName := "bdir", name := "design",
    s3bucket := "bkt", chiselTriplet := "triple", deploytriplet := none,
    gitHash := "abc123", gitDirty := false, hostString := "host1",
    randSuffix := "RNDSUFFIX0", vivadoResult := 0, tarFiles := ["design.tar"],
    agfiId := "agfi-123", afiId := "afi-1",
    pollStatuses := ["pending", "pending", "available"],
    post_build_hook := some "hook.sh", hookExit := 2 }

/-- `envBase` with an empty `to_aws` artifact directory. -/
def envNoTar : Env := { envBase with tarFiles := [] }

/-- `envBase` with two candidate artifact files. -/
def envTwoTar : Env := { envBase with tarFiles := ["a.tar", "b.tar"] }

/-- `envBase` with a failing Vivado invocation (exit code 2). -/
def envVivadoFail : Env := { envBase with vivadoResult := 2 }

/-- `envBase` with a 256-character build triplet. -/
def envLongTag : Env := { envBase with chiselTriplet := String.mk (List.replicate 256 'a') }

/-! ## Helper lemmas about the poll loop and the `aws_create_afi` trace -/

theorem pollLoop_mem (l : List String) :
    ∀ {st : String} {tr : List Event}, pollLoop l = some (st, tr) →
      ∀ e ∈ tr, e = Event.pollQuery ∨ e = Event.sleep 10 := by
  induction l with
  | nil => intro st tr h; simp [pollLoop] at h
  | cons a rest ih =>
    intro st tr h
    rw [pollLoop] at h
    by_cases ha : a = "pending"
    · rw [if_pos ha] at h
      cases hrec : pollLoop rest with
      | none => rw [hrec] at h; exact absurd h (by simp)
      | some pr =>
        obtain ⟨fin, tr0⟩ := pr
        rw [hrec] at h
        injection h with h1
        injection h1 with h2 h3
        subst h2; subst h3
        intro e he
        simp only [List.mem_cons] at he
        rcases he with rfl | rfl | he
        · exact Or.inl rfl
        · exact Or.inr rfl
        · exact ih hrec e he
    · rw [if_neg ha] at h
      injection h with h1
      injection h1 with h2 h3
      subst h3
      intro e he
      simp only [List.mem_cons, List.not_mem_nil, or_false] at he
      rcases he with rfl | rfl
      · exact Or.inl rfl
      · exact Or.inr rfl

theorem pollLoop_countP_zero {p : Event → Bool} (hq : p Event.pollQuery = false)
    (hs : ∀ n, p (Event.sleep n) = false) {l : List String} {st : String}
    {tr : List Event} (h : pollLoop l = some (st, tr)) : tr.countP p = 0 := by
  refine List.countP_eq_zero.mpr (fun e he => ?_)
  rcases pollLoop_mem l h e he with rfl | rfl
  · simp [hq]
  · simp [hs]

theorem pollLoop_all_pending (k : Nat) :
    pollLoop (List.replicate k "pending") = none := by
  induction k with
  | zero => rfl
  | succ n ih => rw [List.replicate_succ, pollLoop, if_pos rfl, ih]

theorem pollLoop_terminates (k : Nat) (s : String) (rest : List String)
    (hs : s ≠ "pending") :
    pollLoop (List.replicate k "pending" ++ s :: rest) =
      some (s, (List.replicate (k + 1) [Event.pollQuery, Event.sleep 10]).flatten) := by
  induction k with
  | zero => simp [pollLoop, if_neg hs]
  | succ n ih =>
    rw [List.replicate_succ, List.cons_append, pollLoop, if_pos rfl, ih]
    simp [List.replicate_succ, List.flatten]

theorem aws_release_count (env : Env) :
    ((aws_create_afi env).1).countP isRelease = 0 := by
  unfold aws_create_afi
  repeat' split
  all_goals
    simp_all [List.countP_append, List.countP_cons, isRelease]
  all_goals
    intro e he
  all_goals
    rcases pollLoop_mem env.pollStatuses (by assumption) e he with rfl | rfl <;> simp

theorem aws_failure_count (env : Env) :
    ((aws_create_afi env).1).countP isNotifyFailure = 0 := by
  unfold aws_create_afi
  repeat' split
  all_goals
    simp_all [List.countP_append, List.countP_cons, isNotifyFailure]
  all_goals
    intro e he
  all_goals
    rcases pollLoop_mem env.pollStatuses (by assumption) e he with rfl | rfl <;> simp

theorem aws_success_count (env : Env) :
    ((aws_create_afi env).1).countP isNotifySuccess =
      (if (aws_create_afi env).2 = AfiOutcome.ok (some true) then 1 else 0) := by
  unfold aws_create_afi
  repeat' split
  all_goals
    simp_all [List.countP_append, List.countP_cons, isNotifySuccess]
  all_goals
    intro e he
  all_goals
    rcases pollLoop_mem env.pollStatuses (by assumption) e he with rfl | rfl <;> simp

/-- Reduction of `aws_create_afi` on an environment whose tag asserts pass, whose
artifact listing is non-empty and whose poll loop terminates. -/
theorem aws_create_afi_reduce (env : Env)
    (h1 : (tag_buildtriplet env).length ≤ 255)
    (h2 : (tag_deploytriplet env).length ≤ 255)
    (h3 : (tag_fsimcommit env).length ≤ 255)
    {t : String} (hl : env.tarFiles.getLast? = some t)
    {st : String} {ptr : List Event} (hp : pollLoop env.pollStatuses = some (st, ptr)) :
    aws_create_afi env =
      if st = "available" then
        ([Event.s3Upload t (t ++ global_append env),
          Event.createImage env.name
            (Description.mk (tag_buildtriplet env) (tag_deploytriplet env)
              (tag_fsimcommit env))] ++ ptr ++
          [Event.distribute, Event.notifySuccess,
            Event.registryWrite env.name (agfi_entry env)] ++
          (if pythonTruthy env.post_build_hook then
            [Event.hookInvoke (env.post_build_hook.getD "" ++ " " ++ local_results_dir env),
              Event.hookLog env.hookExit]
          else []),
          AfiOutcome.ok (some true))
      else
        ([Event.s3Upload t (t ++ global_append env),
          Event.createImage env.name
            (Description.mk (tag_buildtriplet env) (tag_deploytriplet env)
              (tag_fsimcommit env))] ++ ptr,
          AfiOutcome.ok none) := by
  unfold aws_create_afi
  rw [if_neg (by omega), if_neg (by omega), if_neg (by omega), hl, hp]

theorem agfi_entry_contains (env : Env) : StrContains (agfi_entry env) env.agfiId :=
  ⟨env.name ++ ":\n" ++ "    agfi: ",
    "\n" ++ "    deploy_triplet_override: null\n" ++ "    custom_runtime_config: null\n",
    by simp only [agfi_entry, String.append_assoc]⟩

theorem pollFlatten_countQ (m : Nat) :
    ((List.replicate m [Event.pollQuery, Event.sleep 10]).flatten).countP isPollQuery = m := by
  induction m with
  | zero => rfl
  | succ n ih =>
    simp only [List.replicate_succ, List.flatten_cons, List.countP_cons,
      List.countP_append, ih]
    simp [isPollQuery, Nat.add_comm]

theorem pollFlatten_countSleep (m : Nat) :
    ((List.replicate m [Event.pollQuery, Event.sleep 10]).flatten).countP isSleep = m := by
  induction m with
  | zero => rfl
  | succ n ih =>
    simp only [List.replicate_succ, List.flatten_cons, List.countP_cons,
      List.countP_append, ih]
    simp [isSleep, Nat.add_comm]

theorem pollFlatten_sleep_ten (m : Nat) :
    ∀ n, Event.sleep n ∈ (List.replicate m [Event.pollQuery, Event.sleep 10]).flatten →
      n = 10 := by
  induction m with
  | zero => intro n h; simp at h
  | succ k ih =>
    intro n h
    simp only [List.replicate_succ, List.flatten_cons, List.cons_append,
      List.nil_append, List.mem_cons] at h
    rcases h with h | h | h
    · exact absurd h (by simp)
    · injection h
    · exact ih n h

/-! ## Claims -/

/-- C1: for every call to `build_bitstream` that completes normally — which is
exactly the bypass fast path, the success path, the Vivado non-zero-exit branch
and the image-conversion-failure branch — the build host handle release operation
appears exactly once in the trace. -/
theorem C1_release_exactly_once (env : Env) (bypass : Bool)
    (h : (build_bitstream env bypass).2 = BBOutcome.done) :
    ((build_bitstream env bypass).1).countP isRelease = 1 := by
  have h0 := aws_release_count env
  cases bypass with
  | true => rfl
  | false =>
    rw [build_bitstream] at h ⊢
    simp only [Bool.false_eq_true, if_false] at h ⊢
    by_cases hv : env.vivadoResult ≠ 0
    · simp [hv, on_build_failure, List.countP_cons, List.countP_append, isRelease]
    · simp only [hv, if_false] at h ⊢
      cases haws : aws_create_afi env with
      | mk tr out =>
        rw [haws] at h h0
        cases out with
        | exn => exact absurd h (by simp)
        | diverge => exact absurd h (by simp)
        | ok r =>
          by_cases hr : r = some true
          · simp [hr, List.countP_append, List.countP_cons, isRelease, h0]
          · simp [hr, List.countP_append, List.countP_cons, isRelease, h0,
              on_build_failure]

theorem C1_release_exactly_once_witness :
    (build_bitstream envBase false).2 = BBOutcome.done ∧
    ((build_bitstream envBase false).1).countP isRelease = 1 :=
  ⟨rfl, C1_release_exactly_once envBase false rfl⟩

/-- C2 (counterexample): with two matching `.tar` files in the output directory
the operation does not fail — it uploads the last file of the listing and
succeeds. -/
theorem C2_two_tars_upload_happens :
    ((aws_create_afi envTwoTar).1).countP isUpload = 1 ∧
    Event.s3Upload "b.tar" ("b.tar" ++ global_append envTwoTar) ∈ (aws_create_afi envTwoTar).1 ∧
    (aws_create_afi envTwoTar).2 = AfiOutcome.ok (some true) :=
  ⟨rfl, by decide, rfl⟩

/-- C2 (amended): when the tag asserts pass, a zero-match listing makes
`aws_create_afi` fail with an uncaught error and upload nothing; a non-empty
listing (one or more matches) makes it upload exactly one file, namely the last
file of the listing. -/
theorem C2_artifact_selection (env : Env)
    (h1 : (tag_buildtriplet env).length ≤ 255)
    (h2 : (tag_deploytriplet env).length ≤ 255)
    (h3 : (tag_fsimcommit env).length ≤ 255) :
    (env.tarFiles = [] → aws_create_afi env = ([], AfiOutcome.exn)) ∧
    (∀ t, env.tarFiles.getLast? = some t →
      ((aws_create_afi env).1).countP isUpload = 1 ∧
      Event.s3Upload t (t ++ global_append env) ∈ (aws_create_afi env).1) := by
  constructor
  · intro hnil
    unfold aws_create_afi
    rw [if_neg (by omega), if_neg (by omega), if_neg (by omega), hnil]
    rfl
  · intro t hl
    unfold aws_create_afi
    rw [if_neg (by omega), if_neg (by omega), if_neg (by omega), hl]
    simp only []
    cases hp : pollLoop env.pollStatuses with
    | none =>
      dsimp only
      refine ⟨?_, ?_⟩
      · simp [List.countP_cons, isUpload]
      · simp
    | some pr =>
      obtain ⟨st, ptr⟩ := pr
      dsimp only
      have hz : ptr.countP isUpload = 0 :=
        pollLoop_countP_zero rfl (fun _ => rfl) hp
      by_cases hav : st = "available"
      · subst hav
        simp [List.countP_append, List.countP_cons, isUpload, hz]
        rintro a - (rfl | rfl) <;> rfl
      · rw [if_neg hav]
        simp [List.countP_append, List.countP_cons, isUpload, hz]

theorem C2_artifact_selection_witness :
    ((tag_buildtriplet envBase).length ≤ 255 ∧
      (tag_deploytriplet envBase).length ≤ 255 ∧
      (tag_fsimcommit envBase).length ≤ 255 ∧
      envBase.tarFiles.getLast? = some "design.tar") ∧
    ((aws_create_afi envBase).1).countP isUpload = 1 ∧
    Event.s3Upload "design.tar" ("design.tar" ++ global_append envBase) ∈
      (aws_create_afi envBase).1 :=
  ⟨⟨by decide, by decide, by decide, rfl⟩,
    (C2_artifact_selection envBase (by decide) (by decide) (by decide)).2
      "design.tar" rfl⟩

/-- C3 (counterexample): a non-bypass run over an empty artifact directory aborts
with an uncaught IndexError and sends zero notifications — neither the success
nor the failure notification — refuting "never neither" as stated over all
non-bypass runs. -/
theorem C3_no_notification_on_empty_listing :
    ((build_bitstream envNoTar false).1).countP isNotifySuccess = 0 ∧
    ((build_bitstream envNoTar false).1).countP isNotifyFailure = 0 :=
  ⟨rfl, rfl⟩

/-- C3 (amended): on every non-bypass run that completes normally, exactly one of
the success / failure notifications is sent, never both; on a bypass run zero
notifications are sent. -/
theorem C3_notification_exclusivity (env : Env)
    (h : (build_bitstream env false).2 = BBOutcome.done) :
    (((build_bitstream env false).1).countP isNotifySuccess = 1 ∧
        ((build_bitstream env false).1).countP isNotifyFailure = 0 ∨
      ((build_bitstream env false).1).countP isNotifySuccess = 0 ∧
        ((build_bitstream env false).1).countP isNotifyFailure = 1) ∧
    ((build_bitstream env true).1).countP isNotifySuccess = 0 ∧
    ((build_bitstream env true).1).countP isNotifyFailure = 0 := by
  refine ⟨?_, rfl, rfl⟩
  have h0 := aws_success_count env
  have h1 := aws_failure_count env
  rw [build_bitstream] at h ⊢
  simp only [Bool.false_eq_true, if_false] at h ⊢
  by_cases hv : env.vivadoResult ≠ 0
  · right
    simp [hv, on_build_failure, List.countP_cons, List.countP_append,
      isNotifySuccess, isNotifyFailure]
  · simp only [hv, if_false] at h ⊢
    cases haws : aws_create_afi env with
    | mk tr out =>
      rw [haws] at h h0 h1
      cases out with
      | exn => exact absurd h (by simp)
      | diverge => exact absurd h (by simp)
      | ok r =>
        by_cases hr : r = some true
        · left
          simp only [hr, if_pos rfl] at h0 ⊢
          simp [List.countP_append, List.countP_cons, isNotifySuccess,
            isNotifyFailure, h0, h1]
        · right
          rw [if_neg (by simpa using hr)] at h0
          simp [hr, List.countP_append, List.countP_cons, isNotifySuccess,
            isNotifyFailure, h0, h1, on_build_failure]

theorem C3_notification_exclusivity_witness :
    (build_bitstream envBase false).2 = BBOutcome.done ∧
    (((build_bitstream envBase false).1).countP isNotifySuccess = 1 ∧
        ((build_bitstream envBase false).1).countP isNotifyFailure = 0 ∨
      ((build_bitstream envBase false).1).countP isNotifySuccess = 0 ∧
        ((build_bitstream envBase false).1).countP isNotifyFailure = 1) :=
  ⟨rfl, (C3_notification_exclusivity envBase rfl).1⟩

/-- C4: after a non-zero Vivado exit code, no later stage runs: the trace contains
no upload, no create-fpga-image call, no poll query, no distribution and no
registry write. -/
theorem C4_stage_failure_stops_pipeline (env : Env) (h : env.vivadoResult ≠ 0) :
    ((build_bitstream env false).1).countP isUpload = 0 ∧
    ((build_bitstream env false).1).countP isCreateImage = 0 ∧
    ((build_bitstream env false).1).countP isPollQuery = 0 ∧
    ((build_bitstream env false).1).countP isDistribute = 0 ∧
    ((build_bitstream env false).1).countP isRegistryWrite = 0 := by
  rw [build_bitstream]
  simp only [Bool.false_eq_true, if_false, if_pos h]
  refine ⟨rfl, rfl, rfl, rfl, rfl⟩

theorem C4_stage_failure_stops_pipeline_witness :
    envVivadoFail.vivadoResult ≠ 0 ∧
    ((build_bitstream envVivadoFail false).1).countP isUpload = 0 ∧
    ((build_bitstream envVivadoFail false).1).countP isCreateImage = 0 ∧
    ((build_bitstream envVivadoFail false).1).countP isPollQuery = 0 ∧
    ((build_bitstream envVivadoFail false).1).countP isDistribute = 0 ∧
    ((build_bitstream envVivadoFail false).1).countP isRegistryWrite = 0 :=
  ⟨by decide, C4_stage_failure_stops_pipeline envVivadoFail (by decide)⟩

/-- C5: when the poll loop ends at `available`, the image is distributed, exactly
one registry entry named after the build and containing the agfi identifier is
written, and `aws_create_afi` returns success; any other terminal status yields
the non-success result `None`. -/
theorem C5_terminal_state_handling (env : Env)
    (h1 : (tag_buildtriplet env).length ≤ 255)
    (h2 : (tag_deploytriplet env).length ≤ 255)
    (h3 : (tag_fsimcommit env).length ≤ 255)
    {t : String} (hl : env.tarFiles.getLast? = some t)
    {st : String} {ptr : List Event}
    (hp : pollLoop env.pollStatuses = some (st, ptr)) :
    (st = "available" →
      (aws_create_afi env).2 = AfiOutcome.ok (some true) ∧
      Event.distribute ∈ (aws_create_afi env).1 ∧
      ((aws_create_afi env).1).countP isRegistryWrite = 1 ∧
      Event.registryWrite env.name (agfi_entry env) ∈ (aws_create_afi env).1 ∧
      StrContains (agfi_entry env) env.agfiId) ∧
    (st ≠ "available" → (aws_create_afi env).2 = AfiOutcome.ok none) := by
  rw [aws_create_afi_reduce env h1 h2 h3 hl hp]
  have hz : ptr.countP isRegistryWrite = 0 :=
    pollLoop_countP_zero rfl (fun _ => rfl) hp
  constructor
  · intro hav
    rw [if_pos hav]
    refine ⟨rfl, by simp, ?_, by simp, agfi_entry_contains env⟩
    simp [List.countP_append, List.countP_cons, isRegistryWrite, hz]
    rintro a - (rfl | rfl) <;> rfl
  · intro hnav
    rw [if_neg hnav]

theorem C5_terminal_state_handling_witness :
    ((tag_buildtriplet envBase).length ≤ 255 ∧
      (tag_deploytriplet envBase).length ≤ 255 ∧
      (tag_fsimcommit envBase).length ≤ 255 ∧
      envBase.tarFiles.getLast? = some "design.tar" ∧
      pollLoop envBase.pollStatuses =
        some ("available", [Event.pollQuery, Event.sleep 10, Event.pollQuery,
          Event.sleep 10, Event.pollQuery, Event.sleep 10])) ∧
    ((aws_create_afi envBase).2 = AfiOutcome.ok (some true) ∧
      Event.distribute ∈ (aws_create_afi envBase).1 ∧
      ((aws_create_afi envBase).1).countP isRegistryWrite = 1 ∧
      Event.registryWrite envBase.name (agfi_entry envBase) ∈ (aws_create_afi envBase).1 ∧
      StrContains (agfi_entry envBase) envBase.agfiId) :=
  ⟨⟨by decide, by decide, by decide, rfl, rfl⟩,
    (C5_terminal_state_handling envBase (by decide) (by decide) (by decide)
      rfl rfl).1 rfl⟩

/-- C6: with `k` leading `pending` responses followed by a non-`pending` status
`s`, the poll loop terminates with status `s` after exactly `k + 1` status
queries, sleeping a fixed 10 time-units after each query; and on responses that
stay `pending` for any bound `k`, the loop does not stop — there is no upper
bound on the number of attempts. -/
theorem C6_poll_loop (k : Nat) (s : String) (rest : List String)
    (hs : s ≠ "pending") :
    (∃ tr, pollLoop (List.replicate k "pending" ++ s :: rest) = some (s, tr) ∧
      tr.countP isPollQuery = k + 1 ∧ tr.countP isSleep = k + 1 ∧
      ∀ n, Event.sleep n ∈ tr → n = 10) ∧
    pollLoop (List.replicate k "pending") = none :=
  ⟨⟨(List.replicate (k + 1) [Event.pollQuery, Event.sleep 10]).flatten,
      pollLoop_terminates k s rest hs, pollFlatten_countQ (k + 1),
      pollFlatten_countSleep (k + 1), pollFlatten_sleep_ten (k + 1)⟩,
    pollLoop_all_pending k⟩

theorem C6_poll_loop_witness :
    ("available" : String) ≠ "pending" ∧
    ((∃ tr, pollLoop (List.replicate 2 "pending" ++ "available" :: []) = some ("available", tr) ∧
        tr.countP isPollQuery = 2 + 1 ∧ tr.countP isSleep = 2 + 1 ∧
        ∀ n, Event.sleep n ∈ tr → n = 10) ∧
      pollLoop (List.replicate 2 "pending") = none) :=
  ⟨by decide, C6_poll_loop 2 "available" [] (by decide)⟩

/-- C7: `build_bitstream` with `bypass = true` releases the build host
immediately and returns: the trace is exactly one release event — no build
stage, no upload, no notification. -/
theorem C7_bypass_fast_path (env : Env) :
    build_bitstream env true = ([Event.releaseFarmHost], BBOutcome.done) := rfl

/-- C8: on a successful run with a truthy post-build hook, the hook is invoked
exactly once with the local results directory as its argument; its non-zero exit
status is logged and does not change the outcome: the run still completes with
the success notification, the registry write and the farm host release. -/
theorem C8_post_build_hook (env : Env)
    (h1 : (tag_buildtriplet env).length ≤ 255)
    (h2 : (tag_deploytriplet env).length ≤ 255)
    (h3 : (tag_fsimcommit env).length ≤ 255)
    {t : String} (hl : env.tarFiles.getLast? = some t)
    {ptr : List Event} (hp : pollLoop env.pollStatuses = some ("available", ptr))
    (hv : env.vivadoResult = 0)
    (hh : pythonTruthy env.post_build_hook = true)
    (_hx : env.hookExit ≠ 0) :
    (build_bitstream env false).2 = BBOutcome.done ∧
    ((build_bitstream env false).1).countP isHookInvoke = 1 ∧
    Event.hookInvoke (env.post_build_hook.getD "" ++ " " ++ local_results_dir env) ∈
      (build_bitstream env false).1 ∧
    Event.hookLog env.hookExit ∈ (build_bitstream env false).1 ∧
    ((build_bitstream env false).1).countP isNotifySuccess = 1 ∧
    ((build_bitstream env false).1).countP isRegistryWrite = 1 ∧
    ((build_bitstream env false).1).countP isNotifyFailure = 0 ∧
    Event.releaseFarmHost ∈ (build_bitstream env false).1 := by
  have hred := aws_create_afi_reduce env h1 h2 h3 hl hp
  rw [if_pos rfl] at hred
  rw [hh] at hred
  simp only [if_pos rfl] at hred
  have hq : ∀ p : Event → Bool, p Event.pollQuery = false →
      (∀ n, p (Event.sleep n) = false) → ptr.countP p = 0 :=
    fun p hpq hps => pollLoop_countP_zero hpq hps hp
  rw [build_bitstream]
  simp only [Bool.false_eq_true, if_false, hv, ne_eq, not_true_eq_false,
    OfNat.ofNat_ne_zero, not_false_eq_true, if_neg, if_false]
  rw [hred]
  refine ⟨rfl, ?_, by simp, by simp, ?_, ?_, ?_, by simp⟩
  · simp [List.countP_append, List.countP_cons, isHookInvoke,
      hq isHookInvoke rfl (fun _ => rfl)]
  · simp [List.countP_append, List.countP_cons, isNotifySuccess,
      hq isNotifySuccess rfl (fun _ => rfl)]
  · simp [List.countP_append, List.countP_cons, isRegistryWrite,
      hq isRegistryWrite rfl (fun _ => rfl)]
  · simp [List.countP_append, List.countP_cons, isNotifyFailure,
      hq isNotifyFailure rfl (fun _ => rfl)]

theorem C8_post_build_hook_witness :
    ((tag_buildtriplet envBase).length ≤ 255 ∧
      (tag_deploytriplet envBase).length ≤ 255 ∧
      (tag_fsimcommit envBase).length ≤ 255 ∧
      envBase.tarFiles.getLast? = some "design.tar" ∧
      pollLoop envBase.pollStatuses =
        some ("available", [Event.pollQuery, Event.sleep 10, Event.pollQuery,
          Event.sleep 10, Event.pollQuery, Event.sleep 10]) ∧
      envBase.vivadoResult = 0 ∧
      pythonTruthy envBase.post_build_hook = true ∧
      envBase.hookExit ≠ 0) ∧
    ((build_bitstream envBase false).2 = BBOutcome.done ∧
      ((build_bitstream envBase false).1).countP isHookInvoke = 1 ∧
      Event.hookInvoke (envBase.post_build_hook.getD "" ++ " " ++ local_results_dir envBase) ∈
        (build_bitstream envBase false).1 ∧
      Event.hookLog envBase.hookExit ∈ (build_bitstream envBase false).1 ∧
      ((build_bitstream envBase false).1).countP isNotifySuccess = 1 ∧
      ((build_bitstream envBase false).1).countP isRegistryWrite = 1 ∧
      ((build_bitstream envBase false).1).countP isNotifyFailure = 0 ∧
      Event.releaseFarmHost ∈ (build_bitstream envBase false).1) :=
  ⟨⟨by decide, by decide, by decide, rfl, rfl, rfl, rfl, by decide⟩,
    C8_post_build_hook envBase (by decide) (by decide) (by decide)
      rfl rfl rfl rfl (by decide)⟩

/-- C9: if any of the three provenance tags exceeds 255 characters,
`aws_create_afi` fails by assertion before any artifact upload or image
submission occurs. -/
theorem C9_tag_length_asserts (env : Env)
    (h : 255 < (tag_buildtriplet env).length ∨ 255 < (tag_deploytriplet env).length ∨
      255 < (tag_fsimcommit env).length) :
    (aws_create_afi env).2 = AfiOutcome.exn ∧
    ((aws_create_afi env).1).countP isUpload = 0 ∧
    ((aws_create_afi env).1).countP isCreateImage = 0 := by
  unfold aws_create_afi
  by_cases c1 : 255 < (tag_buildtriplet env).length
  · rw [if_pos c1]; exact ⟨rfl, rfl, rfl⟩
  · rw [if_neg c1]
    by_cases c2 : 255 < (tag_deploytriplet env).length
    · rw [if_pos c2]; exact ⟨rfl, rfl, rfl⟩
    · rw [if_neg c2]
      by_cases c3 : 255 < (tag_fsimcommit env).length
      · rw [if_pos c3]; exact ⟨rfl, rfl, rfl⟩
      · rcases h with h | h | h
        · exact absurd h c1
        · exact absurd h c2
        · exact absurd h c3

set_option maxRecDepth 4000 in
theorem C9_tag_length_asserts_witness :
    (255 < (tag_buildtriplet envLongTag).length ∨
      255 < (tag_deploytriplet envLongTag).length ∨
      255 < (tag_fsimcommit envLongTag).length) ∧
    ((aws_create_afi envLongTag).2 = AfiOutcome.exn ∧
      ((aws_create_afi envLongTag).1).countP isUpload = 0 ∧
      ((aws_create_afi envLongTag).1).countP isCreateImage = 0) :=
  ⟨Or.inl (by decide), C9_tag_length_asserts envLongTag (Or.inl (by decide))⟩

/-- C10: the deploy-triplet provenance tag embedded in the image description
equals the configured `deploytriplet` when that attribute is truthy, and the
build (chisel) triplet otherwise. -/
theorem C10_deploy_triplet_tag (env : Env)
    (h1 : (tag_buildtriplet env).length ≤ 255)
    (h2 : (tag_deploytriplet env).length ≤ 255)
    (h3 : (tag_fsimcommit env).length ≤ 255)
    {t : String} (hl : env.tarFiles.getLast? = some t) :
    ((aws_create_afi env).1).countP isCreateImage = 1 ∧
    Event.createImage env.name
      (Description.mk env.chiselTriplet
        (if pythonTruthy env.deploytriplet then env.deploytriplet.getD ""
          else env.chiselTriplet)
        (tag_fsimcommit env)) ∈ (aws_create_afi env).1 := by
  have hdesc : Description.mk env.chiselTriplet
      (if pythonTruthy env.deploytriplet then env.deploytriplet.getD ""
        else env.chiselTriplet) (tag_fsimcommit env) =
      Description.mk (tag_buildtriplet env) (tag_deploytriplet env) (tag_fsimcommit env) := rfl
  rw [hdesc]
  unfold aws_create_afi
  rw [if_neg (by omega), if_neg (by omega), if_neg (by omega), hl]
  dsimp only
  cases hp : pollLoop env.pollStatuses with
  | none =>
    dsimp only
    exact ⟨rfl, by simp⟩
  | some pr =>
    obtain ⟨st, ptr⟩ := pr
    dsimp only
    have hz : ptr.countP isCreateImage = 0 :=
      pollLoop_countP_zero rfl (fun _ => rfl) hp
    by_cases hav : st = "available"
    · rw [if_pos hav]
      constructor
      · simp [List.countP_append, List.countP_cons, isCreateImage, hz]
        rintro a - (rfl | rfl) <;> rfl
      · simp
    · rw [if_neg hav]
      constructor
      · simp [List.countP_append, List.countP_cons, isCreateImage, hz]
      · simp

theorem C10_deploy_triplet_tag_witness :
    ((tag_buildtriplet envBase).length ≤ 255 ∧
      (tag_deploytriplet envBase).length ≤ 255 ∧
      (tag_fsimcommit envBase).length ≤ 255 ∧
      envBase.tarFiles.getLast? = some "design.tar") ∧
    (((aws_create_afi envBase).1).countP isCreateImage = 1 ∧
      Event.createImage envBase.name
        (Description.mk envBase.chiselTriplet
          (if pythonTruthy envBase.deploytriplet then envBase.deploytriplet.getD ""
            else envBase.chiselTriplet)
          (tag_fsimcommit envBase)) ∈ (aws_create_afi envBase).1) :=
  ⟨⟨by decide, by decide, by decide, rfl⟩,
    C10_deploy_triplet_tag envBase (by decide) (by decide) (by decide) rfl⟩
